import Mathlib

/-!
Verification development for the HFrEF visit-1 simulator and its
titration decision engine ("Doctor Brain").

The definitions below are a shallow embedding of the Python sources:
  * `SimulatorConfig`        from src/hfref_simulator/config.py
  * the decision engine      from src/hfref_simulator/decision_engine.py
  * the renal round-trip     from src/hfref_simulator/simulate_visit1.py
  * the physiology deltas    from src/hfref_simulator/physiology.py
  * the eGFR estimator       from src/hfref_simulator/egfr.py

Python floats are modelled as rationals (`ℚ`) where only field access,
arithmetic and comparisons occur, and as reals (`ℝ`) where transcendental
functions (exp, real powers) occur.  Python ints are `Int`.  A possibly
missing / NaN pandas cell is `Option ℚ` (`none` means `pd.isna` is true).
-/

/-- SimulatorConfig from src/hfref_simulator/config.py (a plain dataclass:
every field with its default, in source order; the generated initializer
assigns fields and performs no validation). -/
structure SimulatorConfig where
  seed : Int := 42
  n_days_home : Int := 14
  readings_per_day : Int := 2
  low_sbp_threshold : ℚ := 90
  low_hr_threshold : ℚ := 50
  clinic_sbp_bounds : ℚ × ℚ := (70, 180)
  clinic_hr_bounds : ℚ × ℚ := (35, 130)
  k_bounds : ℚ × ℚ := (3, mkRat 68 10)
  cr_bounds : ℚ × ℚ := (mkRat 5 10, 4)
  gfr_bounds : ℚ × ℚ := (5, 140)
  cr_pct_bounds : ℚ × ℚ := (-20, 80)
  age_bounds : Int × Int := (45, 85)
  baseline_sbp_bounds : ℚ × ℚ := (95, 140)
  baseline_hr_bounds : ℚ × ℚ := (65, 105)
  baseline_cr_bounds : ℚ × ℚ := (mkRat 8 10, mkRat 22 10)
  baseline_k_bounds : ℚ × ℚ := (mkRat 36 10, mkRat 52 10)
  p_any_raasi : ℚ := mkRat 80 100
  p_arni_given_raasi : ℚ := mkRat 28 100
  p_any_bb : ℚ := mkRat 84 100
  p_any_mra : ℚ := mkRat 45 100
  p_sglt2i : ℚ := mkRat 35 100
  dose_probs : ℚ × ℚ × ℚ × ℚ := (mkRat 35 100, mkRat 30 100, mkRat 22 100, mkRat 13 100)
  c_raasi : ℚ := mkRat 16 10
  c_bb : ℚ := mkRat 14 10
  c_mra : ℚ := mkRat 15 10
  c_sglt2i : ℚ := 1
  raasi_sbp_drop : ℚ := -10
  raasi_k_rise : ℚ := mkRat 18 100
  arni_sbp_extra_multiplier : ℚ := mkRat 20 100
  arni_k_extra_multiplier : ℚ := mkRat 3 100
  bb_hr_drop : ℚ := -18
  bb_sbp_drop : ℚ := -4
  mra_sbp_drop : ℚ := mkRat (-25) 10
  mra_k_rise : ℚ := mkRat 32 100
  sglt2i_sbp_drop : ℚ := -3
  cr_prior_noise_sigma : ℚ := mkRat 7 100
  cr_pct_base_mean : ℚ := mkRat 5 10
  cr_pct_base_sd : ℚ := 1
  cr_pct_raas_low : ℚ := 4
  cr_pct_raas_ckd60 : ℚ := 6
  cr_pct_raas_ckd30 : ℚ := 6
  cr_pct_mra_low : ℚ := 1
  cr_pct_mra_ckd60 : ℚ := 2
  sglt2_recent_start_prob : ℚ := mkRat 15 100
  sglt2_low : ℚ := 2
  sglt2_high : ℚ := 6
  cr_pct_noise_sd : ℚ := 4
  wrf_b0 : ℚ := mkRat (-37) 10
  wrf_b60 : ℚ := mkRat 9 10
  wrf_b30 : ℚ := mkRat 12 10
  wrf_b_raas : ℚ := mkRat 25 100
  wrf_b_mra : ℚ := mkRat 15 100
  wrf_b_combo : ℚ := mkRat 35 100
  wrf_mag_low : ℚ := 20
  wrf_mag_high : ℚ := 60
  sbp_sens_sd : ℚ := mkRat 20 100
  hr_sens_sd : ℚ := mkRat 18 100
  hyperk_sens_sd : ℚ := mkRat 22 100
  home_day_noise_sbp : ℚ := mkRat 55 10
  home_day_noise_hr : ℚ := mkRat 45 10
  home_ampm_sbp : ℚ := 3
  home_ampm_hr : ℚ := mkRat 25 10
  home_outlier_prob : ℚ := mkRat 2 100
  home_missing_prob : ℚ := mkRat 8 100
  whitecoat_sbp_mean : ℚ := 4
  whitecoat_sbp_sd : ℚ := 4
  clinic_hr_offset_mean : ℚ := 1
  clinic_hr_offset_sd : ℚ := 2
  hyperk_spike_intercept : ℚ := mkRat (-47) 10
  sx_hypot_intercept : ℚ := mkRat (-295) 100
  sx_brady_intercept : ℚ := mkRat (-315) 100
  hyperk_slope_egfr_low : ℚ := mkRat 55 1000
  hyperk_slope_raasi : ℚ := mkRat 40 100
  hyperk_slope_mra : ℚ := mkRat 75 100
  hyperk_slope_combo : ℚ := mkRat 25 100
  sx_tir_scale : ℚ := mkRat 11 100
  sx_tir_midpoint : ℚ := 10
  TIR_HI : ℚ := 10
  K_HOLD : ℚ := mkRat 55 10
  K_MRA_INIT : ℚ := 5
  K_MRA_UP : ℚ := 5
  GFR_MRA_MIN : ℚ := 30
  GFR_SGLT2_MIN : ℚ := 25
  CR_PCT_HOLD : ℚ := 50
  visit_number : Int := 1

/-- Default configuration: SimulatorConfig() in Python (every field at its
dataclass default). -/
def defaultConfig : SimulatorConfig := {}

/-- Visit record fields read by the decision engine via row.get, with the
defaults the code supplies at each access (dose and flag fields default 0,
TIR fields default 0, Cr defaults 0, GFR defaults 999, Sex defaults "M",
Cr_pct_ch defaults to a missing value, which pandas treats as NaN). -/
structure Row where
  RAASi : Int := 0
  BB : Int := 0
  MRA : Int := 0
  SGLT2i : Int := 0
  K : ℚ := 0
  Cr : ℚ := 0
  Cr_pct_ch : Option ℚ := none
  GFR : ℚ := 999
  TIR_low_sys : ℚ := 0
  TIR_low_HR : ℚ := 0
  Sx_brady : Int := 0
  Sx_hypot : Int := 0
  Sex : String := "M"

/-- Test for (not pd.isna(cr_pct)) and float(cr_pct) >= t, the guard used in
the per-class down-titration triggers of decision_engine.py. -/
def crPctGe (row : Row) (t : ℚ) : Bool :=
  match row.Cr_pct_ch with
  | none => false
  | some v => t ≤ v

/-- Function _cr_safe of decision_engine.py: pd.isna(cr_pct) or
float(cr_pct) < cfg.CR_PCT_HOLD. -/
def cr_safe (row : Row) (cfg : SimulatorConfig) : Bool :=
  match row.Cr_pct_ch with
  | none => true
  | some v => v < cfg.CR_PCT_HOLD

/-- Function _no_change_window of decision_engine.py:
(10 < tir_hr < 20) or (10 < tir_sbp < 20). -/
def no_change_window (row : Row) : Bool :=
  (10 < row.TIR_low_HR && row.TIR_low_HR < 20) ||
    (10 < row.TIR_low_sys && row.TIR_low_sys < 20)

/-- Test replicating sex.upper().startswith("F") from _mra_action: true when
the first character of the string uppercases to F. -/
def sexStartsF (s : String) : Bool :=
  match s.data with
  | [] => false
  | c :: _ => c.toUpper == 'F'

/-- Function _raasi_action of decision_engine.py (lines 26-42). -/
def raasi_action (row : Row) (cfg : SimulatorConfig) : Int × String :=
  if 3 ≤ row.Cr ∨ crPctGe row 50 = true ∨ (mkRat 55 10 : ℚ) ≤ row.K ∨
      10 < row.TIR_low_sys ∨ row.Sx_hypot = 1 then
    (-1, "safety_raasi_protocol_down: RAASi protocol down-titration")
  else if no_change_window row = true ∧ row.Sx_hypot = 0 then
    (0, "no_change_raasi_protocol")
  else if row.Cr < 3 ∧ cr_safe row cfg = true ∧ row.K < mkRat 55 10 ∧
      row.TIR_low_sys ≤ 10 ∧ row.Sx_hypot = 0 then
    (1, "uptitration_raasi_protocol")
  else
    (0, "no_change_raasi_protocol")

/-- Function _bb_action of decision_engine.py (lines 45-60). -/
def bb_action (row : Row) (_cfg : SimulatorConfig) : Int × String :=
  if 10 < row.TIR_low_HR ∨ 10 < row.TIR_low_sys ∨ row.Sx_brady = 1 ∨
      row.Sx_hypot = 1 then
    (-1, "safety_bradycardia/bp_protocol_down: BB protocol down-titration")
  else if no_change_window row = true ∧ row.Sx_brady = 0 ∧ row.Sx_hypot = 0 then
    (0, "no_change_bb_protocol")
  else if row.TIR_low_HR ≤ 10 ∧ row.TIR_low_sys ≤ 10 ∧ row.Sx_brady = 0 ∧
      row.Sx_hypot = 0 then
    (1, "uptitration_bb_protocol")
  else
    (0, "no_change_bb_protocol")

/-- Function _mra_action of decision_engine.py (lines 63-82); the sex-specific
creatinine cutoff is 2 (female-like sex string) or 5/2 (otherwise). -/
def mra_action (row : Row) (cfg : SimulatorConfig) : Int × String :=
  let cr_cutoff : ℚ := if sexStartsF row.Sex then 2 else mkRat 25 10
  if row.GFR ≤ 30 ∨ cr_cutoff ≤ row.Cr ∨ crPctGe row 50 = true ∨
      (mkRat 55 10 : ℚ) ≤ row.K ∨ 10 < row.TIR_low_sys ∨ row.Sx_hypot = 1 then
    (-1, "safety_hyperkalemia/renal/bp_protocol_down: MRA protocol down-titration")
  else if no_change_window row = true ∧ row.Sx_hypot = 0 then
    (0, "no_change_mra_protocol")
  else if 30 < row.GFR ∧ row.Cr < cr_cutoff ∧ cr_safe row cfg = true ∧
      row.K < 5 ∧ row.TIR_low_sys ≤ 10 ∧ row.Sx_hypot = 0 then
    (1, "uptitration_mra_protocol")
  else
    (0, "no_change_mra_protocol")

/-- Function _sglt2_action of decision_engine.py (lines 85-102). -/
def sglt2_action (row : Row) (_cfg : SimulatorConfig) : Int × String :=
  if row.GFR ≤ 25 ∨ 10 < row.TIR_low_sys ∨ row.Sx_hypot = 1 then
    (-1, "safety_sglt2i_protocol_down: SGLT2i protocol down-titration")
  else if no_change_window row = true ∧ row.Sx_hypot = 0 then
    (0, "no_change_sglt2i_protocol")
  else if 25 < row.GFR ∧ row.TIR_low_sys ≤ 10 ∧ row.Sx_hypot = 0 then
    (1, "uptitration_sglt2i_protocol")
  else
    (0, "no_change_sglt2i_protocol")

/-- Function recommend_sequence_titration of decision_engine.py
(lines 105-158).  The two loops over ORDER = [RAASi, BB, MRA, SGLT2i]
are unrolled in that fixed order; the per-class down-titration loop
returns the class together with direction -1 and the action's reason,
the initiation loop returns the first zero-dose class with +1, the
uptitration loop skips SGLT2i and returns the first dose in [1,4). -/
def recommend_sequence_titration (row : Row) (cfg : SimulatorConfig) :
    String × Int × String :=
  if (row.Sx_brady = 1 ∨ 10 < row.TIR_low_HR) ∧ 0 < row.BB then
    ("BB", -1, "safety_bradycardia: BB protocol down-titration")
  else if (mkRat 55 10 : ℚ) ≤ row.K ∧ 0 < row.MRA then
    ("MRA", -1, "safety_hyperkalemia: MRA protocol down-titration")
  else if (mkRat 55 10 : ℚ) ≤ row.K ∧ 0 < row.RAASi then
    ("RAASi", -1, "safety_hyperkalemia: RAASi protocol down-titration")
  else if (row.Sx_hypot = 1 ∨ 10 < row.TIR_low_sys) ∧ 0 < row.RAASi then
    ("RAASi", -1, "safety_hypotension: RAASi protocol down-titration")
  else if 0 < row.RAASi ∧ (raasi_action row cfg).1 < 0 then
    ("RAASi", -1, (raasi_action row cfg).2)
  else if 0 < row.BB ∧ (bb_action row cfg).1 < 0 then
    ("BB", -1, (bb_action row cfg).2)
  else if 0 < row.MRA ∧ (mra_action row cfg).1 < 0 then
    ("MRA", -1, (mra_action row cfg).2)
  else if 0 < row.SGLT2i ∧ (sglt2_action row cfg).1 < 0 then
    ("SGLT2i", -1, (sglt2_action row cfg).2)
  else if row.RAASi = 0 then
    ("RAASi", 1, "initiation_priority_order: RAASi is first zero-dose pillar")
  else if row.BB = 0 then
    ("BB", 1, "initiation_priority_order: BB is first zero-dose pillar")
  else if row.MRA = 0 then
    ("MRA", 1, "initiation_priority_order: MRA is first zero-dose pillar")
  else if row.SGLT2i = 0 then
    ("SGLT2i", 1, "initiation_priority_order: SGLT2i is first zero-dose pillar")
  else if 1 ≤ row.RAASi ∧ row.RAASi < 4 then
    ("RAASi", 1, "uptitration_priority_order: RAASi is first submaximal pillar")
  else if 1 ≤ row.BB ∧ row.BB < 4 then
    ("BB", 1, "uptitration_priority_order: BB is first submaximal pillar")
  else if 1 ≤ row.MRA ∧ row.MRA < 4 then
    ("MRA", 1, "uptitration_priority_order: MRA is first submaximal pillar")
  else
    ("NONE", 0, "protocol_no_change: no down-trigger and all pillars at max/maintained")

/-- Function add_doctor_brain_columns of decision_engine.py (lines 161-167):
apply recommend_sequence_titration to every row, keeping the row next to its
Sequence / titration / criteria columns. -/
def add_doctor_brain_columns (df : List Row) (cfg : SimulatorConfig) :
    List (Row × String × Int × String) :=
  df.map fun r => (r, recommend_sequence_titration r cfg)

/-- Baseline stable row used by the repository's decision-engine tests:
all four classes dosed at level 1, K mkRat 45 10, Cr mkRat 12 10, Cr_pct_ch mkRat 50 10, GFR 55,
zero TIR, no symptom flags.  (SBP/HR appear in the test dict but are never
read by the engine.) -/
def baseRow : Row :=
  { RAASi := 1, BB := 1, MRA := 1, SGLT2i := 1, K := mkRat 45 10, Cr := mkRat 12 10,
    Cr_pct_ch := some 5, GFR := 55, TIR_low_sys := 0, TIR_low_HR := 0,
    Sx_brady := 0, Sx_hypot := 0, Sex := "M" }

/-- First dose-0 medication class in the canonical order
ORDER = [RAASi, BB, MRA, SGLT2i] (the class the initiation loop of
recommend_sequence_titration picks); "SGLT2i" when only SGLT2i is at 0. -/
def firstZeroDose (row : Row) : String :=
  if row.RAASi = 0 then "RAASi"
  else if row.BB = 0 then "BB"
  else if row.MRA = 0 then "MRA"
  else "SGLT2i"

theorem raasi_action_down_of_crpct (row : Row) (cfg : SimulatorConfig)
    (h : crPctGe row 50 = true) : (raasi_action row cfg).1 = -1 := by
  unfold raasi_action
  rw [if_pos (Or.inr (Or.inl h))]

theorem mra_action_down_of_crpct (row : Row) (cfg : SimulatorConfig)
    (h : crPctGe row 50 = true) : (mra_action row cfg).1 = -1 := by
  unfold mra_action
  simp only []
  rw [if_pos (Or.inr (Or.inr (Or.inl h)))]

/-- C4: for every visit record with BB dose > 0 on which the bradycardia
trigger holds (symptomatic bradycardia, or TIR_low_HR above the high-burden
threshold 10), recommend_sequence_titration returns (BB, -1) with the
safety_bradycardia reason, regardless of any other trigger on the record
(the rule is the first one evaluated). -/
theorem bradycardia_rule_first_priority (row : Row) (cfg : SimulatorConfig)
    (hbb : 0 < row.BB) (htrig : row.Sx_brady = 1 ∨ 10 < row.TIR_low_HR) :
    recommend_sequence_titration row cfg =
      ("BB", -1, "safety_bradycardia: BB protocol down-titration") ∧
    ∃ rest, "safety_bradycardia: BB protocol down-titration" =
      "safety_bradycardia" ++ rest := by
  unfold recommend_sequence_titration
  rw [if_pos ⟨htrig, hbb⟩]
  exact ⟨rfl, ": BB protocol down-titration", by decide⟩

/-- Baseline row with every down-trigger set at once: symptomatic bradycardia
and hypotension, potassium 6, creatinine-percent-change 60, both TIR burdens
at 30. -/
def allTriggerRow : Row :=
  { baseRow with Sx_brady := 1, Sx_hypot := 1, K := 6, Cr_pct_ch := some 60,
                 TIR_low_sys := 30, TIR_low_HR := 30 }

/-- Witness for C4: a record on which the hyperkalemia, hypotension and all
per-class down-triggers also match still yields the bradycardia rule. -/
theorem bradycardia_rule_first_priority_witness :
    recommend_sequence_titration allTriggerRow defaultConfig =
      ("BB", -1, "safety_bradycardia: BB protocol down-titration") :=
  (bradycardia_rule_first_priority allTriggerRow defaultConfig
    (by decide) (by decide)).1

/-- Baseline stable row with potassium raised to 5.7. -/
def hyperkRow : Row := { baseRow with K := mkRat 57 10 }

/-- C3: on any record with potassium at or above 5.5 on which the bradycardia
rule does not fire, the engine down-titrates MRA when dosed, else RAASi when
dosed; and on the baseline stable row with potassium set to 5.7 the result is
exactly (MRA, -1) with a reason containing safety_hyperkalemia. -/
theorem hyperkalemia_downtitrates_mra_then_raasi :
    (∀ (row : Row) (cfg : SimulatorConfig),
      (mkRat 55 10 : ℚ) ≤ row.K →
      ¬ ((row.Sx_brady = 1 ∨ 10 < row.TIR_low_HR) ∧ 0 < row.BB) →
      (0 < row.MRA → recommend_sequence_titration row cfg =
        ("MRA", -1, "safety_hyperkalemia: MRA protocol down-titration")) ∧
      (row.MRA ≤ 0 → 0 < row.RAASi → recommend_sequence_titration row cfg =
        ("RAASi", -1, "safety_hyperkalemia: RAASi protocol down-titration"))) ∧
    (recommend_sequence_titration hyperkRow defaultConfig =
        ("MRA", -1, "safety_hyperkalemia: MRA protocol down-titration") ∧
      ∃ rest, "safety_hyperkalemia: MRA protocol down-titration" =
        "safety_hyperkalemia" ++ rest) := by
  refine ⟨fun row cfg hk hnb => ⟨fun hmra => ?_, fun hmle hraasi => ?_⟩,
    by decide, ": MRA protocol down-titration", by decide⟩
  · unfold recommend_sequence_titration
    rw [if_neg hnb, if_pos ⟨hk, hmra⟩]
  · unfold recommend_sequence_titration
    rw [if_neg hnb, if_neg (fun h => absurd h.2 (not_lt.mpr hmle)),
      if_pos ⟨hk, hraasi⟩]

/-- Witness for C3: the general part applied to the baseline row with
potassium 5.7 (MRA dosed), discharging both hypotheses concretely. -/
theorem hyperkalemia_downtitrates_mra_then_raasi_witness :
    recommend_sequence_titration hyperkRow defaultConfig =
      ("MRA", -1, "safety_hyperkalemia: MRA protocol down-titration") :=
  (hyperkalemia_downtitrates_mra_then_raasi.1 hyperkRow defaultConfig
    (by decide) (by decide)).1 (by decide)

/-- Row on which the first zero-dose class (RAASi) fails its own protocol
eligibility: creatinine 3.5 is at or above the RAASi protocol cutoff 3, yet
no down-trigger fires for any dosed class (BB and SGLT2i are stable). -/
def ineligibleInitRow : Row :=
  { RAASi := 0, BB := 1, MRA := 0, SGLT2i := 1, K := mkRat 45 10,
    Cr := mkRat 35 10, Cr_pct_ch := some 5, GFR := 60 }

/-- Counterexample to C1: the initiation loop initiates RAASi at dose 0 even
though the RAASi protocol itself signals down-titration (creatinine 3.5 is at
or above its cutoff 3), i.e. class-specific eligibility is not consulted. -/
theorem initiation_without_eligibility_cex :
    ineligibleInitRow.RAASi = 0 ∧
    3 ≤ ineligibleInitRow.Cr ∧
    (raasi_action ineligibleInitRow defaultConfig).1 = -1 ∧
    recommend_sequence_titration ineligibleInitRow defaultConfig =
      ("RAASi", 1, "initiation_priority_order: RAASi is first zero-dose pillar") := by
  decide

/-- C1 as amended: when no safety rule fires and no dosed class's protocol
signals down, the engine initiates the first dose-0 class in canonical order
with direction +1 unconditionally; class-specific eligibility is never
checked on the initiation path. -/
theorem initiation_first_zero_dose_unconditional (row : Row) (cfg : SimulatorConfig)
    (h1 : ¬ ((row.Sx_brady = 1 ∨ 10 < row.TIR_low_HR) ∧ 0 < row.BB))
    (h2 : ¬ ((mkRat 55 10 : ℚ) ≤ row.K ∧ 0 < row.MRA))
    (h3 : ¬ ((mkRat 55 10 : ℚ) ≤ row.K ∧ 0 < row.RAASi))
    (h4 : ¬ ((row.Sx_hypot = 1 ∨ 10 < row.TIR_low_sys) ∧ 0 < row.RAASi))
    (h5 : ¬ (0 < row.RAASi ∧ (raasi_action row cfg).1 < 0))
    (h6 : ¬ (0 < row.BB ∧ (bb_action row cfg).1 < 0))
    (h7 : ¬ (0 < row.MRA ∧ (mra_action row cfg).1 < 0))
    (h8 : ¬ (0 < row.SGLT2i ∧ (sglt2_action row cfg).1 < 0))
    (h9 : row.RAASi = 0 ∨ row.BB = 0 ∨ row.MRA = 0 ∨ row.SGLT2i = 0) :
    (recommend_sequence_titration row cfg).1 = firstZeroDose row ∧
    (recommend_sequence_titration row cfg).2.1 = 1 := by
  unfold recommend_sequence_titration firstZeroDose
  rw [if_neg h1, if_neg h2, if_neg h3, if_neg h4, if_neg h5, if_neg h6,
    if_neg h7, if_neg h8]
  by_cases hra : row.RAASi = 0
  · rw [if_pos hra, if_pos hra]; exact ⟨rfl, rfl⟩
  · rw [if_neg hra, if_neg hra]
    by_cases hbb : row.BB = 0
    · rw [if_pos hbb, if_pos hbb]; exact ⟨rfl, rfl⟩
    · rw [if_neg hbb, if_neg hbb]
      by_cases hmra : row.MRA = 0
      · rw [if_pos hmra, if_pos hmra]; exact ⟨rfl, rfl⟩
      · rw [if_neg hmra, if_neg hmra]
        rcases h9 with h | h | h | h
        · exact absurd h hra
        · exact absurd h hbb
        · exact absurd h hmra
        · rw [if_pos h]; exact ⟨rfl, rfl⟩

/-- Witness for amended C1: the amended theorem applied to the record whose
first zero-dose class would be ineligible under the spec's reading. -/
theorem initiation_first_zero_dose_unconditional_witness :
    (recommend_sequence_titration ineligibleInitRow defaultConfig).1 =
      firstZeroDose ineligibleInitRow ∧
    (recommend_sequence_titration ineligibleInitRow defaultConfig).2.1 = 1 :=
  initiation_first_zero_dose_unconditional ineligibleInitRow defaultConfig
    (by decide) (by decide) (by decide) (by decide) (by decide) (by decide)
    (by decide) (by decide) (by decide)

/-- Baseline stable row with RAASi dose 1, MRA dose 3 and creatinine-percent-
change 60 (at or above the hold threshold 50). -/
def renalHoldRow : Row := { baseRow with MRA := 3, Cr_pct_ch := some 60 }

/-- Counterexample to C2: creatinine-percent-change 60 at or above the hold
threshold, bradycardia and hyperkalemia rules silent, both RAASi (dose 1) and
MRA (dose 3) dosed with the MRA dose strictly higher — yet the engine returns
RAASi, not MRA: there is no higher-dose comparison anywhere in the code. -/
theorem renal_hold_ignores_higher_dose_cex :
    crPctGe renalHoldRow 50 = true ∧
    renalHoldRow.K < mkRat 55 10 ∧
    renalHoldRow.Sx_brady = 0 ∧ renalHoldRow.TIR_low_HR ≤ 10 ∧
    0 < renalHoldRow.RAASi ∧ renalHoldRow.RAASi < renalHoldRow.MRA ∧
    (recommend_sequence_titration renalHoldRow defaultConfig).1 = "RAASi" ∧
    (recommend_sequence_titration renalHoldRow defaultConfig).1 ≠ "MRA" := by
  decide

/-- C2 as amended: when creatinine-percent-change is at or above 50 and the
bradycardia and hyperkalemia rules are silent, the engine down-titrates the
first dosed class of the canonical order RAASi-before-MRA: RAASi whenever
RAASi is dosed (whatever the MRA dose), and MRA when RAASi is undosed, MRA is
dosed and the BB protocol does not preempt it. -/
theorem renal_hold_first_dosed_raasi_then_mra (row : Row) (cfg : SimulatorConfig)
    (hcr : crPctGe row 50 = true)
    (hnb : ¬ ((row.Sx_brady = 1 ∨ 10 < row.TIR_low_HR) ∧ 0 < row.BB))
    (hk : row.K < mkRat 55 10) :
    (0 < row.RAASi →
      (recommend_sequence_titration row cfg).1 = "RAASi" ∧
      (recommend_sequence_titration row cfg).2.1 = -1) ∧
    (row.RAASi ≤ 0 → 0 < row.MRA → ¬ (0 < row.BB ∧ (bb_action row cfg).1 < 0) →
      (recommend_sequence_titration row cfg).1 = "MRA" ∧
      (recommend_sequence_titration row cfg).2.1 = -1) := by
  have hk2 : ¬ ((mkRat 55 10 : ℚ) ≤ row.K ∧ 0 < row.MRA) :=
    fun h => absurd h.1 (not_le.mpr hk)
  have hk3 : ¬ ((mkRat 55 10 : ℚ) ≤ row.K ∧ 0 < row.RAASi) :=
    fun h => absurd h.1 (not_le.mpr hk)
  constructor
  · intro hraasi
    unfold recommend_sequence_titration
    rw [if_neg hnb, if_neg hk2, if_neg hk3]
    by_cases hhyp : row.Sx_hypot = 1 ∨ 10 < row.TIR_low_sys
    · rw [if_pos ⟨hhyp, hraasi⟩]; exact ⟨rfl, rfl⟩
    · rw [if_neg (fun h => hhyp h.1),
        if_pos ⟨hraasi, by rw [raasi_action_down_of_crpct row cfg hcr]; decide⟩]
      exact ⟨rfl, rfl⟩
  · intro hra0 hmra hbb
    have hra0' : ¬ 0 < row.RAASi := not_lt.mpr hra0
    unfold recommend_sequence_titration
    rw [if_neg hnb, if_neg hk2, if_neg hk3,
      if_neg (fun h => hra0' h.2), if_neg (fun h => hra0' h.1), if_neg hbb,
      if_pos ⟨hmra, by rw [mra_action_down_of_crpct row cfg hcr]; decide⟩]
    exact ⟨rfl, rfl⟩

/-- Witness for amended C2: both parts at concrete records (RAASi dosed with
a higher MRA dose; RAASi undosed with MRA dosed). -/
theorem renal_hold_first_dosed_raasi_then_mra_witness :
    ((recommend_sequence_titration renalHoldRow defaultConfig).1 = "RAASi" ∧
      (recommend_sequence_titration renalHoldRow defaultConfig).2.1 = -1) ∧
    ((recommend_sequence_titration { renalHoldRow with RAASi := 0 }
        defaultConfig).1 = "MRA" ∧
      (recommend_sequence_titration { renalHoldRow with RAASi := 0 }
        defaultConfig).2.1 = -1) :=
  ⟨(renal_hold_first_dosed_raasi_then_mra renalHoldRow defaultConfig
      (by decide) (by decide) (by decide)).1 (by decide),
   (renal_hold_first_dosed_raasi_then_mra { renalHoldRow with RAASi := 0 }
      defaultConfig (by decide) (by decide) (by decide)).2
      (by decide) (by decide) (by decide)⟩

theorem recommend_shape (row : Row) (cfg : SimulatorConfig) :
    ((recommend_sequence_titration row cfg).2.1 = -1 ∨
      (recommend_sequence_titration row cfg).2.1 = 0 ∨
      (recommend_sequence_titration row cfg).2.1 = 1) ∧
    ((recommend_sequence_titration row cfg).1 = "NONE" ↔
      (recommend_sequence_titration row cfg).2.1 = 0) := by
  unfold recommend_sequence_titration
  by_cases h1 : (row.Sx_brady = 1 ∨ 10 < row.TIR_low_HR) ∧ 0 < row.BB
  · rw [if_pos h1]; simp
  rw [if_neg h1]
  by_cases h2 : (mkRat 55 10 : ℚ) ≤ row.K ∧ 0 < row.MRA
  · rw [if_pos h2]; simp
  rw [if_neg h2]
  by_cases h3 : (mkRat 55 10 : ℚ) ≤ row.K ∧ 0 < row.RAASi
  · rw [if_pos h3]; simp
  rw [if_neg h3]
  by_cases h4 : (row.Sx_hypot = 1 ∨ 10 < row.TIR_low_sys) ∧ 0 < row.RAASi
  · rw [if_pos h4]; simp
  rw [if_neg h4]
  by_cases h5 : 0 < row.RAASi ∧ (raasi_action row cfg).1 < 0
  · rw [if_pos h5]; simp
  rw [if_neg h5]
  by_cases h6 : 0 < row.BB ∧ (bb_action row cfg).1 < 0
  · rw [if_pos h6]; simp
  rw [if_neg h6]
  by_cases h7 : 0 < row.MRA ∧ (mra_action row cfg).1 < 0
  · rw [if_pos h7]; simp
  rw [if_neg h7]
  by_cases h8 : 0 < row.SGLT2i ∧ (sglt2_action row cfg).1 < 0
  · rw [if_pos h8]; simp
  rw [if_neg h8]
  by_cases h9 : row.RAASi = 0
  · rw [if_pos h9]; simp
  rw [if_neg h9]
  by_cases h10 : row.BB = 0
  · rw [if_pos h10]; simp
  rw [if_neg h10]
  by_cases h11 : row.MRA = 0
  · rw [if_pos h11]; simp
  rw [if_neg h11]
  by_cases h12 : row.SGLT2i = 0
  · rw [if_pos h12]; simp
  rw [if_neg h12]
  by_cases h13 : 1 ≤ row.RAASi ∧ row.RAASi < 4
  · rw [if_pos h13]; simp
  rw [if_neg h13]
  by_cases h14 : 1 ≤ row.BB ∧ row.BB < 4
  · rw [if_pos h14]; simp
  rw [if_neg h14]
  by_cases h15 : 1 ≤ row.MRA ∧ row.MRA < 4
  · rw [if_pos h15]; simp
  rw [if_neg h15]
  simp

/-- C5: every call of the engine returns one recommendation whose direction
lies in -1, 0, +1 with class NONE exactly when the direction is 0, and every
row of add_doctor_brain_columns inherits the same invariant. -/
theorem one_recommendation_direction_none_iff :
    (∀ (row : Row) (cfg : SimulatorConfig),
      ((recommend_sequence_titration row cfg).2.1 = -1 ∨
        (recommend_sequence_titration row cfg).2.1 = 0 ∨
        (recommend_sequence_titration row cfg).2.1 = 1) ∧
      ((recommend_sequence_titration row cfg).1 = "NONE" ↔
        (recommend_sequence_titration row cfg).2.1 = 0)) ∧
    (∀ (df : List Row) (cfg : SimulatorConfig)
      (t : Row × String × Int × String), t ∈ add_doctor_brain_columns df cfg →
      (t.2.2.1 = -1 ∨ t.2.2.1 = 0 ∨ t.2.2.1 = 1) ∧
      (t.2.1 = "NONE" ↔ t.2.2.1 = 0)) := by
  refine ⟨fun row cfg => recommend_shape row cfg, fun df cfg t ht => ?_⟩
  simp only [add_doctor_brain_columns, List.mem_map] at ht
  obtain ⟨r, -, rfl⟩ := ht
  exact recommend_shape r cfg

/-- Witness for C5: the batch invariant at a one-row table. -/
theorem one_recommendation_direction_none_iff_witness :
    (((baseRow, recommend_sequence_titration baseRow defaultConfig) :
        Row × String × Int × String).2.2.1 = -1 ∨
      ((baseRow, recommend_sequence_titration baseRow defaultConfig) :
        Row × String × Int × String).2.2.1 = 0 ∨
      ((baseRow, recommend_sequence_titration baseRow defaultConfig) :
        Row × String × Int × String).2.2.1 = 1) ∧
    (((baseRow, recommend_sequence_titration baseRow defaultConfig) :
        Row × String × Int × String).2.1 = "NONE" ↔
      ((baseRow, recommend_sequence_titration baseRow defaultConfig) :
        Row × String × Int × String).2.2.1 = 0) :=
  one_recommendation_direction_none_iff.2 [baseRow] defaultConfig
    (baseRow, recommend_sequence_titration baseRow defaultConfig)
    (by simp [add_doctor_brain_columns])

/-- Scalar np.clip: min(max(x, lo), hi). -/
def clip (x lo hi : ℚ) : ℚ := min (max x lo) hi

/-- Visit creatinine from simulate_visit1.py line 131:
np.clip(cr_prior * (1 + cr_pct_ch / 100), *cfg.cr_bounds), as a function of
the latent prior creatinine and the stored percent-change column. -/
def cr_visit1 (cfg : SimulatorConfig) (cr_prior cr_pct_ch : ℚ) : ℚ :=
  clip (cr_prior * (1 + cr_pct_ch / 100)) cfg.cr_bounds.1 cfg.cr_bounds.2

/-- Percent-change recomputed from the stored visit creatinine and the latent
prior: (Cr_visit1 - Cr_prior) / Cr_prior * 100, the quantity the round-trip
claim compares against the stored Cr_pct_ch. -/
def recomputed_cr_pct (cfg : SimulatorConfig) (cr_prior cr_pct_ch : ℚ) : ℚ :=
  (cr_visit1 cfg cr_prior cr_pct_ch - cr_prior) / cr_prior * 100

/-- Counterexample to C6: a prior creatinine of 3 (inside cr_bounds) with a
stored percent-change of 80 (inside cr_pct_bounds) has its visit creatinine
clipped at the upper creatinine bound 4, so the recomputed percent-change is
100/3, off the stored 80 by 140/3 — far beyond any 1e-6 relative tolerance
(which allows at most 80/1000000 here). -/
theorem cr_pct_roundtrip_cex :
    defaultConfig.cr_bounds.1 ≤ 3 ∧ (3 : ℚ) ≤ defaultConfig.cr_bounds.2 ∧
    defaultConfig.cr_pct_bounds.1 ≤ 80 ∧ (80 : ℚ) ≤ defaultConfig.cr_pct_bounds.2 ∧
    recomputed_cr_pct defaultConfig 3 80 = 100 / 3 ∧
    ¬ |recomputed_cr_pct defaultConfig 3 80 - 80| ≤ (1 / 1000000) * 80 := by
  have hval : recomputed_cr_pct defaultConfig 3 80 = 100 / 3 := by
    norm_num [recomputed_cr_pct, cr_visit1, clip, defaultConfig,
      Rat.mkRat_eq_div, min_def, max_def]
  refine ⟨by norm_num [defaultConfig, Rat.mkRat_eq_div],
    by norm_num [defaultConfig], by norm_num [defaultConfig],
    by norm_num [defaultConfig], hval, ?_⟩
  rw [hval, show (100 / 3 : ℚ) - 80 = -(140 / 3) by norm_num, abs_neg,
    abs_of_nonneg (by norm_num)]
  norm_num

/-- C6 as amended: the round-trip (Cr_visit1 - Cr_prior)/Cr_prior * 100 is
exactly the stored percent-change (in particular within every tolerance)
whenever the unclipped product cr_prior * (1 + pct/100) already lies inside
cr_bounds, so that the clip at line 131 is the identity; the prior must be
nonzero for the quotient to be meaningful. -/
theorem cr_pct_roundtrip_exact_when_unclipped (cfg : SimulatorConfig)
    (cr_prior pct : ℚ) (h0 : cr_prior ≠ 0)
    (hlo : cfg.cr_bounds.1 ≤ cr_prior * (1 + pct / 100))
    (hhi : cr_prior * (1 + pct / 100) ≤ cfg.cr_bounds.2) :
    recomputed_cr_pct cfg cr_prior pct = pct := by
  unfold recomputed_cr_pct cr_visit1 clip
  rw [max_eq_left hlo, min_eq_left hhi]
  field_simp
  ring

/-- Witness for amended C6: prior 1, stored change 10, default bounds. -/
theorem cr_pct_roundtrip_exact_when_unclipped_witness :
    recomputed_cr_pct defaultConfig 1 10 = 10 :=
  cr_pct_roundtrip_exact_when_unclipped defaultConfig 1 10 (by norm_num)
    (by norm_num [defaultConfig, Rat.mkRat_eq_div])
    (by norm_num [defaultConfig])

/-- Constructor behaviour of the SimulatorConfig dataclass: the generated
initializer assigns the provided field values and performs no validation of
any kind, so construction always yields the configuration object.  The
Except codomain models the fail-fast channel the spec asks for. -/
def simulatorConfigInit (c : SimulatorConfig) : Except String SimulatorConfig :=
  Except.ok c

/-- Configuration-error predicate transcribing the spec's error classes: an
inverted bounds tuple (low > high), a probability parameter outside [0, 1],
or a negative saturation constant.  config.py contains no corresponding
check anywhere; this predicate only fixes what the claim counts as an
erroneous parameter assignment. -/
def config_error (c : SimulatorConfig) : Bool :=
  decide (c.clinic_sbp_bounds.2 < c.clinic_sbp_bounds.1) ||
  decide (c.clinic_hr_bounds.2 < c.clinic_hr_bounds.1) ||
  decide (c.k_bounds.2 < c.k_bounds.1) ||
  decide (c.cr_bounds.2 < c.cr_bounds.1) ||
  decide (c.gfr_bounds.2 < c.gfr_bounds.1) ||
  decide (c.cr_pct_bounds.2 < c.cr_pct_bounds.1) ||
  decide (c.age_bounds.2 < c.age_bounds.1) ||
  decide (c.baseline_sbp_bounds.2 < c.baseline_sbp_bounds.1) ||
  decide (c.baseline_hr_bounds.2 < c.baseline_hr_bounds.1) ||
  decide (c.baseline_cr_bounds.2 < c.baseline_cr_bounds.1) ||
  decide (c.baseline_k_bounds.2 < c.baseline_k_bounds.1) ||
  decide (c.p_any_raasi < 0 ∨ 1 < c.p_any_raasi) ||
  decide (c.p_arni_given_raasi < 0 ∨ 1 < c.p_arni_given_raasi) ||
  decide (c.p_any_bb < 0 ∨ 1 < c.p_any_bb) ||
  decide (c.p_any_mra < 0 ∨ 1 < c.p_any_mra) ||
  decide (c.p_sglt2i < 0 ∨ 1 < c.p_sglt2i) ||
  decide (c.sglt2_recent_start_prob < 0 ∨ 1 < c.sglt2_recent_start_prob) ||
  decide (c.home_outlier_prob < 0 ∨ 1 < c.home_outlier_prob) ||
  decide (c.home_missing_prob < 0 ∨ 1 < c.home_missing_prob) ||
  decide (c.dose_probs.1 < 0 ∨ 1 < c.dose_probs.1) ||
  decide (c.dose_probs.2.1 < 0 ∨ 1 < c.dose_probs.2.1) ||
  decide (c.dose_probs.2.2.1 < 0 ∨ 1 < c.dose_probs.2.2.1) ||
  decide (c.dose_probs.2.2.2 < 0 ∨ 1 < c.dose_probs.2.2.2) ||
  decide (c.c_raasi < 0) || decide (c.c_bb < 0) ||
  decide (c.c_mra < 0) || decide (c.c_sglt2i < 0)

/-- Default configuration with one erroneous field: inverted creatinine
bounds (low 4 above high 1/2). -/
def badConfig : SimulatorConfig := { cr_bounds := (4, mkRat 5 10) }

/-- Counterexample to C7: a parameter assignment with inverted cr_bounds is a
configuration error in the spec's sense, yet constructing SimulatorConfig
from it succeeds and returns the configuration object — nothing fails fast. -/
theorem config_error_still_constructs_cex :
    badConfig.cr_bounds.2 < badConfig.cr_bounds.1 ∧
    config_error badConfig = true ∧
    simulatorConfigInit badConfig = Except.ok badConfig :=
  ⟨by decide, by decide, rfl⟩

/-- C7 as amended: SimulatorConfig construction never fails; no validation is
performed at construction time, even on assignments the spec classifies as
configuration errors. -/
theorem config_init_accepts_any_values (c : SimulatorConfig)
    (_h : config_error c = true) :
    simulatorConfigInit c = Except.ok c := rfl

/-- Witness for amended C7: the erroneous assignment still constructs. -/
theorem config_init_accepts_any_values_witness :
    simulatorConfigInit badConfig = Except.ok badConfig :=
  config_init_accepts_any_values badConfig (by decide)

/-- Keys present in the baseline mapping at the moment simulate_visit1 calls
compute_vitals_labs_expected (simulate_visit1.py lines 105-142: the four
sampled baselines plus eGFR_prior and eGFR_visit1 added at lines 140-141). -/
def baseline_keys : List String :=
  ["SBP0", "HR0", "Cr0", "K0", "eGFR_prior", "eGFR_visit1"]

/-- Keys present in the effects mapping (simulate_visit1.py lines 134-138). -/
def effects_keys : List String := ["sbp_sens", "hr_sens", "hyperk_sens"]

/-- Attribute names of the SimulatorConfig dataclass (config.py, in source
order). -/
def simulator_config_attrs : List String :=
  ["seed", "n_days_home", "readings_per_day", "low_sbp_threshold",
   "low_hr_threshold", "clinic_sbp_bounds", "clinic_hr_bounds", "k_bounds",
   "cr_bounds", "gfr_bounds", "cr_pct_bounds", "age_bounds",
   "baseline_sbp_bounds", "baseline_hr_bounds", "baseline_cr_bounds",
   "baseline_k_bounds", "p_any_raasi", "p_arni_given_raasi", "p_any_bb",
   "p_any_mra", "p_sglt2i", "dose_probs", "c_raasi", "c_bb", "c_mra",
   "c_sglt2i", "raasi_sbp_drop", "raasi_k_rise", "arni_sbp_extra_multiplier",
   "arni_k_extra_multiplier", "bb_hr_drop", "bb_sbp_drop", "mra_sbp_drop",
   "mra_k_rise", "sglt2i_sbp_drop", "cr_prior_noise_sigma",
   "cr_pct_base_mean", "cr_pct_base_sd", "cr_pct_raas_low",
   "cr_pct_raas_ckd60", "cr_pct_raas_ckd30", "cr_pct_mra_low",
   "cr_pct_mra_ckd60", "sglt2_recent_start_prob", "sglt2_low", "sglt2_high",
   "cr_pct_noise_sd", "wrf_b0", "wrf_b60", "wrf_b30", "wrf_b_raas",
   "wrf_b_mra", "wrf_b_combo", "wrf_mag_low", "wrf_mag_high", "sbp_sens_sd",
   "hr_sens_sd", "hyperk_sens_sd", "home_day_noise_sbp", "home_day_noise_hr",
   "home_ampm_sbp", "home_ampm_hr", "home_outlier_prob", "home_missing_prob",
   "whitecoat_sbp_mean", "whitecoat_sbp_sd", "clinic_hr_offset_mean",
   "clinic_hr_offset_sd", "hyperk_spike_intercept", "sx_hypot_intercept",
   "sx_brady_intercept", "hyperk_slope_egfr_low", "hyperk_slope_raasi",
   "hyperk_slope_mra", "hyperk_slope_combo", "sx_tir_scale",
   "sx_tir_midpoint", "TIR_HI", "K_HOLD", "K_MRA_INIT", "K_MRA_UP",
   "GFR_MRA_MIN", "GFR_SGLT2_MIN", "CR_PCT_HOLD", "visit_number"]

/-- Baseline keys compute_vitals_labs_expected subscripts (physiology.py
lines 13-63), in code order of first access. -/
def cvle_baseline_reads : List String := ["SBP0", "HR0", "eGFR0", "Cr0", "K0"]

/-- Effects keys compute_vitals_labs_expected subscripts, in code order. -/
def cvle_effects_reads : List String :=
  ["sbp_sens", "hr_sens", "renal_sens", "hyperk_sens"]

/-- Config attributes compute_vitals_labs_expected accesses, in code order. -/
def cvle_config_reads : List String :=
  ["c_raasi", "c_bb", "c_mra", "c_sglt2i", "raasi_sbp_drop", "bb_sbp_drop",
   "mra_sbp_drop", "sglt2i_sbp_drop", "bb_hr_drop", "raasi_cr_rise",
   "mra_cr_rise", "sglt2i_cr_rise", "wrf_intercept", "wrf_slope_egfr_low",
   "wrf_slope_raasi", "wrf_slope_mra", "raasi_k_rise", "mra_k_rise",
   "hyperk_spike_intercept", "hyperk_slope_egfr_low", "hyperk_slope_raasi",
   "hyperk_slope_mra", "hyperk_slope_combo"]

/-- C10: the packaged simulate_visit1 call into compute_vitals_labs_expected
reads the baseline key eGFR0, the effects key renal_sens and seven config
attributes that the caller / SimulatorConfig never provide, so the lookup
environment is incomplete exactly at those names (eGFR0 being the first read
to fail) and the Python call raises before producing any output. -/
theorem compute_vitals_labs_expected_missing_names :
    cvle_baseline_reads.filter (fun k => !(baseline_keys.contains k)) =
      ["eGFR0"] ∧
    cvle_effects_reads.filter (fun k => !(effects_keys.contains k)) =
      ["renal_sens"] ∧
    cvle_config_reads.filter (fun a => !(simulator_config_attrs.contains a)) =
      ["raasi_cr_rise", "mra_cr_rise", "sglt2i_cr_rise", "wrf_intercept",
       "wrf_slope_egfr_low", "wrf_slope_raasi", "wrf_slope_mra"] := by
  decide

/-- Saturation curve sat(dose, c) = 1 - exp(-dose / c) from physiology.py. -/
noncomputable def sat (dose c : ℝ) : ℝ := 1 - Real.exp (-dose / c)

/-- SBP delta of compute_vitals_labs_expected (physiology.py lines 19-24) for
one patient: sbp_sens times the sum of the four per-class drop×saturation
terms.  The ARNI sub-flag is not among its inputs: the code never reads it. -/
noncomputable def sbp_delta (cfg : SimulatorConfig)
    (raasi bb mra sglt2 sbp_sens : ℝ) : ℝ :=
  sbp_sens * ((cfg.raasi_sbp_drop : ℝ) * sat raasi (cfg.c_raasi : ℝ)
    + (cfg.bb_sbp_drop : ℝ) * sat bb (cfg.c_bb : ℝ)
    + (cfg.mra_sbp_drop : ℝ) * sat mra (cfg.c_mra : ℝ)
    + (cfg.sglt2i_sbp_drop : ℝ) * sat sglt2 (cfg.c_sglt2i : ℝ))

/-- HR delta of compute_vitals_labs_expected (physiology.py line 25):
hr_sens * (bb_hr_drop * sat(BB dose, c_bb)). -/
noncomputable def hr_delta (cfg : SimulatorConfig) (bb hr_sens : ℝ) : ℝ :=
  hr_sens * ((cfg.bb_hr_drop : ℝ) * sat bb (cfg.c_bb : ℝ))

/-- Modelled from the spec: the SBP-delta formula the claim states, in which
the RAASi term of a patient with the ARNI sub-flag set is amplified by the
configured arni_sbp_extra_multiplier.  No such term exists in the code; this
definition exists only to be compared with sbp_delta. -/
noncomputable def claimed_sbp_delta (cfg : SimulatorConfig)
    (raasi bb mra sglt2 : ℝ) (arni : Bool) (sens : ℝ) : ℝ :=
  sens * ((cfg.raasi_sbp_drop : ℝ) * sat raasi (cfg.c_raasi : ℝ) *
      (1 + (if arni then (cfg.arni_sbp_extra_multiplier : ℝ) else 0))
    + (cfg.bb_sbp_drop : ℝ) * sat bb (cfg.c_bb : ℝ)
    + (cfg.mra_sbp_drop : ℝ) * sat mra (cfg.c_mra : ℝ)
    + (cfg.sglt2i_sbp_drop : ℝ) * sat sglt2 (cfg.c_sglt2i : ℝ))

/-- Counterexample to C8: for a patient with the ARNI sub-flag set, RAASi
dose 1, unit sensitivity and default configuration, the claimed
ARNI-amplified SBP delta differs from the code's SBP delta — the code
applies no ARNI amplification. -/
theorem sbp_delta_arni_amplification_cex :
    claimed_sbp_delta defaultConfig 1 0 0 0 true 1 ≠
      sbp_delta defaultConfig 1 0 0 0 1 := by
  have hc : (defaultConfig.c_raasi : ℝ) = 8 / 5 := by
    norm_num [defaultConfig, Rat.mkRat_eq_div]
  have hsat : 0 < sat 1 (defaultConfig.c_raasi : ℝ) := by
    rw [hc]
    unfold sat
    have h1 : Real.exp (-1 / (8 / 5)) < 1 := by
      rw [Real.exp_lt_one_iff]
      norm_num
    linarith
  intro h
  have hd : claimed_sbp_delta defaultConfig 1 0 0 0 true 1 -
      sbp_delta defaultConfig 1 0 0 0 1 =
      (defaultConfig.raasi_sbp_drop : ℝ) * sat 1 (defaultConfig.c_raasi : ℝ) *
        (defaultConfig.arni_sbp_extra_multiplier : ℝ) := by
    simp only [claimed_sbp_delta, sbp_delta, if_pos]
    ring
  rw [h, sub_self] at hd
  have hdrop : (defaultConfig.raasi_sbp_drop : ℝ) = -10 := by
    norm_num [defaultConfig]
  have hmul : (defaultConfig.arni_sbp_extra_multiplier : ℝ) = 1 / 5 := by
    norm_num [defaultConfig, Rat.mkRat_eq_div]
  rw [hdrop, hmul] at hd
  nlinarith [hsat]

/-- C8 as amended: the code's SBP delta is the claimed formula with the ARNI
amplification absent (ARNI flag off): sensitivity times the plain sum of the
four drop×saturation terms; and the HR delta is sensitivity times the BB
drop×saturation term alone. -/
theorem sbp_hr_delta_no_arni_amplification (cfg : SimulatorConfig)
    (raasi bb mra sglt2 sens hrsens : ℝ) :
    sbp_delta cfg raasi bb mra sglt2 sens =
      claimed_sbp_delta cfg raasi bb mra sglt2 false sens ∧
    hr_delta cfg bb hrsens =
      hrsens * ((cfg.bb_hr_drop : ℝ) * sat bb (cfg.c_bb : ℝ)) := by
  constructor
  · simp [claimed_sbp_delta, sbp_delta]
  · rfl

/-- Sex test of egfr.py: the lowercased sex string is one of f, female. -/
def isFemaleSex (s : String) : Bool :=
  s.toLower == "f" || s.toLower == "female"

/-- Function egfr_ckd_epi_2021 of egfr.py for one subject: the CKD-EPI 2021
race-free creatinine equation, with sex-specific kappa, alpha and factor. -/
noncomputable def egfr_ckd_epi_2021 (scr_mg_dl age : ℝ) (sex : String) : ℝ :=
  let kappa : ℝ := if isFemaleSex sex then 0.7 else 0.9
  let alpha : ℝ := if isFemaleSex sex then -0.241 else -0.302
  let sex_factor : ℝ := if isFemaleSex sex then 1.012 else 1
  let ratio := scr_mg_dl / kappa
  142 * (min ratio 1) ^ alpha * (max ratio 1) ^ (-(1.200 : ℝ)) *
    (0.9938 : ℝ) ^ age * sex_factor

theorem egfr_g_strict_anti {a b : ℝ} (ha : a < 0) (hb : b < 0) {r1 r2 : ℝ}
    (h1 : 0 < r1) (h12 : r1 < r2) :
    (min r2 1) ^ a * (max r2 1) ^ b < (min r1 1) ^ a * (max r1 1) ^ b := by
  rcases le_or_lt r2 1 with h2 | h2
  · have hle : r1 ≤ 1 := le_of_lt (lt_of_lt_of_le h12 h2)
    rw [min_eq_left hle, min_eq_left h2, max_eq_right hle, max_eq_right h2,
      Real.one_rpow, mul_one, mul_one]
    exact Real.rpow_lt_rpow_of_neg h1 h12 ha
  · rcases le_or_lt r1 1 with h1' | h1'
    · rw [min_eq_left h1', max_eq_right h1', min_eq_right (le_of_lt h2),
        max_eq_left (le_of_lt h2), Real.one_rpow, Real.one_rpow, one_mul,
        mul_one]
      calc r2 ^ b < 1 := Real.rpow_lt_one_of_one_lt_of_neg h2 hb
        _ ≤ r1 ^ a :=
          Real.one_le_rpow_of_pos_of_le_one_of_nonpos h1 h1' (le_of_lt ha)
    · rw [min_eq_right (le_of_lt h1'), min_eq_right (le_of_lt h2),
        max_eq_left (le_of_lt h1'), max_eq_left (le_of_lt h2),
        Real.one_rpow, one_mul, one_mul]
      exact Real.rpow_lt_rpow_of_neg (lt_trans one_pos h1') h12 hb

theorem egfr_core_strict_anti (kappa alpha sexf age cr1 cr2 : ℝ)
    (hkap : 0 < kappa) (hal : alpha < 0) (hsex : 0 < sexf)
    (h0 : 0 < cr1) (h12 : cr1 < cr2) :
    142 * (min (cr2 / kappa) 1) ^ alpha *
        (max (cr2 / kappa) 1) ^ (-(1.200 : ℝ)) * (0.9938 : ℝ) ^ age * sexf <
      142 * (min (cr1 / kappa) 1) ^ alpha *
        (max (cr1 / kappa) 1) ^ (-(1.200 : ℝ)) * (0.9938 : ℝ) ^ age * sexf := by
  have hr1 : 0 < cr1 / kappa := div_pos h0 hkap
  have hr12 : cr1 / kappa < cr2 / kappa := by
    rw [div_eq_mul_inv, div_eq_mul_inv]
    exact mul_lt_mul_of_pos_right h12 (inv_pos.mpr hkap)
  have hg := egfr_g_strict_anti hal (by norm_num : (-(1.200 : ℝ)) < 0) hr1 hr12
  have hpa : (0 : ℝ) < (0.9938 : ℝ) ^ age :=
    Real.rpow_pos_of_pos (by norm_num) age
  have hc : (0 : ℝ) < 142 * ((0.9938 : ℝ) ^ age) * sexf :=
    mul_pos (mul_pos (by norm_num) hpa) hsex
  calc 142 * (min (cr2 / kappa) 1) ^ alpha *
        (max (cr2 / kappa) 1) ^ (-(1.200 : ℝ)) * (0.9938 : ℝ) ^ age * sexf
      = (142 * ((0.9938 : ℝ) ^ age) * sexf) *
        ((min (cr2 / kappa) 1) ^ alpha * (max (cr2 / kappa) 1) ^ (-(1.200 : ℝ))) := by
        ring
    _ < (142 * ((0.9938 : ℝ) ^ age) * sexf) *
        ((min (cr1 / kappa) 1) ^ alpha * (max (cr1 / kappa) 1) ^ (-(1.200 : ℝ))) :=
        (mul_lt_mul_left hc).mpr hg
    _ = 142 * (min (cr1 / kappa) 1) ^ alpha *
        (max (cr1 / kappa) 1) ^ (-(1.200 : ℝ)) * (0.9938 : ℝ) ^ age * sexf := by
        ring

/-- C9: for every fixed age and sex string, egfr_ckd_epi_2021 is strictly
decreasing in creatinine on positive creatinines. -/
theorem egfr_strictly_decreasing_in_cr (cr1 cr2 age : ℝ) (sex : String)
    (h0 : 0 < cr1) (h12 : cr1 < cr2) :
    egfr_ckd_epi_2021 cr2 age sex < egfr_ckd_epi_2021 cr1 age sex := by
  cases hfem : isFemaleSex sex with
  | true =>
      simp only [egfr_ckd_epi_2021, hfem, if_true]
      exact egfr_core_strict_anti _ _ _ age cr1 cr2 (by norm_num) (by norm_num)
        (by norm_num) h0 h12
  | false =>
      simp only [egfr_ckd_epi_2021, hfem, if_false]
      exact egfr_core_strict_anti _ _ _ age cr1 cr2 (by norm_num) (by norm_num)
        (by norm_num) h0 h12

/-- Witness for C9: the spec's example — creatinine 0.9 < 1.3 < 1.8 at age
65, male — gives strictly decreasing eGFR values. -/
theorem egfr_strictly_decreasing_in_cr_witness :
    egfr_ckd_epi_2021 1.3 65 "M" < egfr_ckd_epi_2021 0.9 65 "M" ∧
    egfr_ckd_epi_2021 1.8 65 "M" < egfr_ckd_epi_2021 1.3 65 "M" :=
  ⟨egfr_strictly_decreasing_in_cr 0.9 1.3 65 "M" (by norm_num) (by norm_num),
   egfr_strictly_decreasing_in_cr 1.3 1.8 65 "M" (by norm_num) (by norm_num)⟩
